import Mathlib

/-!
Shallow embedding of the token-bucket rate limiter in
`templates/backend/fastapi-rate-limiting.py` (class `RateLimiter`), together
with the key-building helpers `get_client_ip` and `get_rate_limit_key`.

Python floats are modelled as exact rationals (`ℚ`); the outcome of
`float(s)` on a stored string is modelled abstractly as `Option ℚ`
(`none` = the string does not parse, so `float` raises `ValueError`).
Fallible paths return `Except CheckError _`: an `Except.error` models a
Python exception that propagates out of `check_rate_limit` uncaught.
-/

namespace RateLimit

instance {ε α : Type} [DecidableEq ε] [DecidableEq α] : DecidableEq (Except ε α) := fun x y =>
  match x, y with
  | .ok a, .ok b =>
    if h : a = b then isTrue (h ▸ rfl) else isFalse (fun hh => h (Except.ok.inj hh))
  | .error a, .error b =>
    if h : a = b then isTrue (h ▸ rfl) else isFalse (fun hh => h (Except.error.inj hh))
  | .ok _, .error _ => isFalse (fun hh => Except.noConfusion hh)
  | .error _, .ok _ => isFalse (fun hh => Except.noConfusion hh)

/-- Python `int()` truncation toward zero on a rational. -/
def pyInt (q : ℚ) : ℤ := if 0 ≤ q then ⌊q⌋ else ⌈q⌉

/-- A persisted bucket hash as `hgetall` returns it.  Each field is
`none` when absent from the hash, `some none` when present but not a
parseable number (so `float` raises `ValueError`), and `some (some v)`
when it parses to the value `v`. -/
structure RawBucket where
  tokens : Option (Option ℚ)
  last_refill : Option (Option ℚ)
deriving Repr, DecidableEq

/-- The store's state for one rate-limit key: the bucket hash (`none` when
the key is absent, i.e. `hgetall` returns an empty mapping) and the TTL
set by the last `expire` call. -/
structure Store where
  bucket : Option RawBucket
  ttl : Option ℤ
deriving Repr, DecidableEq

/-- The dictionary returned by `check_rate_limit`. -/
structure Decision where
  allowed : Bool
  limit : ℤ
  remaining : ℤ
  reset : ℤ
  retry_after : ℤ
deriving Repr, DecidableEq

/-- Python exceptions that can escape `check_rate_limit` (only
`RedisConnectionError` is caught by the code). -/
inductive CheckError where
  | valueError
  | keyError
  | zeroDivision
  | redisTimeout
deriving Repr, DecidableEq

/-- The refill expression of `check_rate_limit` (lines 155-157):
`min(max_requests, tokens + (now - last_refill) * (max_requests / window_seconds))`.
The code does not clamp `elapsed` to zero. -/
def refilled (tokens0 last_refill : ℚ) (max_requests window_seconds : ℤ) (now : ℚ) : ℚ :=
  min (max_requests : ℚ) (tokens0 + (now - last_refill) * ((max_requests : ℚ) / (window_seconds : ℚ)))

/-- The compute phase of `check_rate_limit` between the `hgetall` read and
the `hset` write: from the bucket snapshot, the candidate token balance
after refill and the tentative consumption of one token (lines 146-160).
Errors model the uncaught `ValueError` / `KeyError` / `ZeroDivisionError`. -/
def tokensAfterRead (bucket : Option RawBucket) (max_requests window_seconds : ℤ) (now : ℚ) :
    Except CheckError ℚ :=
  match bucket with
  | none => .ok ((max_requests : ℚ) - 1)
  | some b =>
    match b.tokens with
    | none => .ok ((max_requests : ℚ) - 1)
    | some tokField =>
      match tokField with
      | none => .error .valueError
      | some tokens0 =>
        match b.last_refill with
        | none => .error .keyError
        | some lrField =>
          match lrField with
          | none => .error .valueError
          | some last_refill =>
            if window_seconds = 0 then .error .zeroDivision
            else .ok (refilled tokens0 last_refill max_requests window_seconds now - 1)

/-- `RateLimiter.check_rate_limit` (lines 117-208), as a function of the
store state for the key.  `storeUp = false` models the Redis operations
raising `RedisConnectionError`, the one exception class the code catches
(line 187); the except-branch then returns the fail-open or fail-closed
decision.  A redis `TimeoutError` is not covered by this flag: it is not
a subclass of the caught class and is modelled separately by
`check_rate_limit_with_fault`. -/
def check_rate_limit (fail_open storeUp : Bool) (store : Store)
    (max_requests window_seconds : ℤ) (now : ℚ) :
    Except CheckError (Decision × Store) :=
  if storeUp = false then
    if fail_open then
      .ok ({ allowed := true, limit := max_requests, remaining := max_requests,
             reset := pyInt (now + (window_seconds : ℚ)), retry_after := 0 }, store)
    else
      .ok ({ allowed := false, limit := max_requests, remaining := 0,
             reset := pyInt (now + (window_seconds : ℚ)), retry_after := window_seconds }, store)
  else
    match tokensAfterRead store.bucket max_requests window_seconds now with
    | .error e => .error e
    | .ok tokens =>
      let allowed := decide (0 ≤ tokens)
      let store' : Store :=
        if allowed then
          { bucket := some { tokens := some (some tokens), last_refill := some (some now) },
            ttl := some (window_seconds * 2) }
        else store
      .ok ({ allowed := allowed,
             limit := max_requests,
             remaining := max 0 (pyInt tokens),
             reset := pyInt (now + (window_seconds : ℚ)),
             retry_after := if allowed then 0 else window_seconds }, store')

/-- How the store behaves during one `check_rate_limit` call: all Redis
operations succeed, or they raise `redis.exceptions.ConnectionError`
(imported as `RedisConnectionError`, line 36), or they raise
`redis.exceptions.TimeoutError` (the `socket_timeout=1` /
`socket_connect_timeout=1` paths, lines 102-103). -/
inductive StoreFault where
  | up
  | connectionError
  | timeoutError
deriving Repr, DecidableEq

/-- `RateLimiter.check_rate_limit` including the disposition of a store
fault, per the library's documented exception hierarchy:
`redis.exceptions.ConnectionError` and `redis.exceptions.TimeoutError`
are sibling subclasses of `RedisError`, so the `except
RedisConnectionError` handler at line 187 catches the former (routing it
to the degradation branch) while the latter propagates out of
`check_rate_limit` uncaught. -/
def check_rate_limit_with_fault (fail_open : Bool) (fault : StoreFault) (store : Store)
    (max_requests window_seconds : ℤ) (now : ℚ) :
    Except CheckError (Decision × Store) :=
  match fault with
  | .up => check_rate_limit fail_open true store max_requests window_seconds now
  | .connectionError => check_rate_limit fail_open false store max_requests window_seconds now
  | .timeoutError => .error .redisTimeout

/-- Sequential `check_rate_limit` calls against one key at a fixed instant
`now`: the list of `allowed` decisions and the final store state.  An
uncaught exception aborts the sequence. -/
def runChecks (fail_open storeUp : Bool) (max_requests window_seconds : ℤ) (now : ℚ) :
    ℕ → Store → List Bool × Store
  | 0, s => ([], s)
  | n + 1, s =>
    match check_rate_limit fail_open storeUp s max_requests window_seconds now with
    | .ok (d, s1) =>
      let r := runChecks fail_open storeUp max_requests window_seconds now n s1
      (d.allowed :: r.1, r.2)
    | .error _ => ([], s)

/-- One caller's `allowed` decision when its `hgetall` read returned the
snapshot `bucket`: the sign test of line 163 on the balance computed from
that snapshot (an uncaught exception yields no allowed decision). -/
def allowedFromSnapshot (bucket : Option RawBucket) (max_requests window_seconds : ℤ)
    (now : ℚ) : Bool :=
  match tokensAfterRead bucket max_requests window_seconds now with
  | .ok tokens => decide (0 ≤ tokens)
  | .error _ => false

/-- The `hgetall` read (line 144) and the `hset`/`expire` write (lines
167-172) are separate awaited store operations, so the event loop may run
the reads of all `n` concurrent `check_rate_limit` callers before any
caller's write.  Under that legal interleaving every caller's compute
phase sees the same initial snapshot; this is the list of the `n`
decisions produced by that schedule. -/
def concurrentDecisions (n : ℕ) (bucket : Option RawBucket) (max_requests window_seconds : ℤ)
    (now : ℚ) : List Bool :=
  (List.range n).map (fun _ => allowedFromSnapshot bucket max_requests window_seconds now)

/-- How many decisions in a list are `allowed = true`. -/
def allowedCount (ds : List Bool) : ℕ := (ds.filter id).length

/-- Modelled from the spec: the store-side TTL countdown (the backing
Redis store itself is not part of the repository's sources).  A record's
remaining TTL `elapsed` seconds after `expire key t` is `t - elapsed`,
floored at 0, the point at which the record expires. -/
def ttlRemaining (t elapsed : ℤ) : ℤ := max 0 (t - elapsed)

/-- The three key strategies of `get_rate_limit_key`. -/
inductive Strategy where
  | ip
  | user
  | combined
deriving Repr, DecidableEq

/-- The characters Python `str.strip()` removes by default. -/
def isPySpace (c : Char) : Bool :=
  c = ' ' || c = '\t' || c = '\n' || c = '\r' || c = '\x0b' || c = '\x0c'

/-- Python `str.strip()` on a string viewed as its character list. -/
def pyStrip (s : List Char) : List Char :=
  ((s.dropWhile isPySpace).reverse.dropWhile isPySpace).reverse

/-- Python `str.split(sep)` for a one-character separator; on an empty
string it returns one empty piece, as Python does. -/
def splitOnChar (sep : Char) : List Char → List (List Char)
  | [] => [[]]
  | c :: cs =>
    let r := splitOnChar sep cs
    if c = sep then [] :: r
    else
      match r with
      | [] => [[c]]
      | h :: t => (c :: h) :: t

/-- `RateLimiter.get_client_ip` (lines 210-225): the first entry of the
`X-Forwarded-For` chain, stripped, else the direct connection host.  An
absent header is `none`; an empty header string is falsy in Python and
also falls through to the connection host. -/
def get_client_ip (forwarded_for : Option (List Char)) (client_host : List Char) : List Char :=
  match forwarded_for with
  | some s => if s = [] then client_host else pyStrip ((splitOnChar ',' s).headD [])
  | none => client_host

/-- `RateLimiter.get_rate_limit_key` (lines 227-262), over the request
data it reads (forwarded-for header, connection host, path).  `Except.error`
models the `ValueError` raised for the `user` strategy without a
`user_id`; an empty `user_id` is falsy in Python. -/
def get_rate_limit_key (strategy : Strategy) (forwarded_for : Option (List Char))
    (client_host : List Char) (user_id : Option (List Char)) (path : List Char) :
    Except Unit (List Char) :=
  match strategy with
  | .ip =>
    .ok ("ip:".data ++ get_client_ip forwarded_for client_host ++ ":".data ++ path)
  | .user =>
    match user_id with
    | none => .error ()
    | some u =>
      if u = [] then .error ()
      else .ok ("user:".data ++ u ++ ":".data ++ path)
  | .combined =>
    let ip := get_client_ip forwarded_for client_host
    match user_id with
    | none => .ok ("ip:".data ++ ip ++ ":".data ++ path)
    | some u =>
      if u = [] then .ok ("ip:".data ++ ip ++ ":".data ++ path)
      else .ok ("combined:".data ++ u ++ ":".data ++ ip ++ ":".data ++ path)

/-- Eliminator for a successful `check_rate_limit` call with the store up:
it exposes the post-read balance `t` and ties the returned decision and
the written state to it. -/
theorem check_rate_limit_ok_elim (fail_open : Bool) (s : Store)
    (max_requests window_seconds : ℤ) (now : ℚ) (d : Decision) (s1 : Store)
    (h : check_rate_limit fail_open true s max_requests window_seconds now = .ok (d, s1)) :
    ∃ t, tokensAfterRead s.bucket max_requests window_seconds now = .ok t ∧
      d = { allowed := decide (0 ≤ t), limit := max_requests,
            remaining := max 0 (pyInt t), reset := pyInt (now + (window_seconds : ℚ)),
            retry_after := if decide (0 ≤ t) then (0 : ℤ) else window_seconds } ∧
      s1 = (if decide (0 ≤ t)
            then { bucket := some { tokens := some (some t), last_refill := some (some now) },
                   ttl := some (window_seconds * 2) }
            else s) := by
  unfold check_rate_limit at h
  rw [if_neg (by decide)] at h
  cases htok : tokensAfterRead s.bucket max_requests window_seconds now with
  | error e => rw [htok] at h; exact absurd h (by simp)
  | ok t =>
    rw [htok] at h
    simp only [Except.ok.injEq, Prod.mk.injEq] at h
    exact ⟨t, rfl, h.1.symm, h.2.symm⟩

/-- The post-read balance never exceeds `max_requests - 1`: the new-bucket
branch starts one token below capacity and the refill branch caps the
balance at capacity (`min`) before consuming one token. -/
theorem tokensAfterRead_le_sub_one (bucket : Option RawBucket)
    (max_requests window_seconds : ℤ) (now : ℚ) (t : ℚ)
    (h : tokensAfterRead bucket max_requests window_seconds now = .ok t) :
    t ≤ (max_requests : ℚ) - 1 := by
  rcases bucket with _ | ⟨tf, lf⟩
  · simp only [tokensAfterRead, Except.ok.injEq] at h
    linarith [h]
  · rcases tf with _ | (_ | tok)
    · simp only [tokensAfterRead, Except.ok.injEq] at h
      linarith [h]
    · exact absurd h (by simp [tokensAfterRead])
    · rcases lf with _ | (_ | lr)
      · exact absurd h (by simp [tokensAfterRead])
      · exact absurd h (by simp [tokensAfterRead])
      · by_cases hw : window_seconds = 0
        · exact absurd h (by simp [tokensAfterRead, hw])
        · simp only [tokensAfterRead] at h
          rw [if_neg hw] at h
          have ht := Except.ok.inj h
          have hm : refilled tok lr max_requests window_seconds now ≤ (max_requests : ℚ) :=
            min_le_left _ _
          linarith [ht]

/-- C2: a `check_rate_limit` call that returns `allowed = false` leaves the
store state for the key — the bucket record's tokens and last_refill
fields and its TTL — exactly as it was before the call: a denied check
performs no write. -/
theorem C2_denied_check_leaves_store_unchanged (fail_open : Bool) (s : Store)
    (max_requests window_seconds : ℤ) (now : ℚ) (d : Decision) (s1 : Store)
    (h : check_rate_limit fail_open true s max_requests window_seconds now = .ok (d, s1))
    (hd : d.allowed = false) : s1 = s := by
  rcases check_rate_limit_ok_elim _ _ _ _ _ _ _ h with ⟨t, _, hdv, hsv⟩
  rw [hdv] at hd
  simp only [decide_eq_false_iff_not] at hd
  rw [hsv]
  simp [hd]

/-- C4: every bucket record written by an allowed check holds a tokens
value in `[0, capacity]` (together with `last_refill = now` and the TTL
refresh), whatever the stored state was — including an adversarially
inflated tokens value, which the `min` cap bounds before consumption. -/
theorem C4_persisted_tokens_in_range (fail_open : Bool) (s : Store)
    (max_requests window_seconds : ℤ) (now : ℚ) (d : Decision) (s1 : Store)
    (h : check_rate_limit fail_open true s max_requests window_seconds now = .ok (d, s1))
    (hd : d.allowed = true) :
    ∃ t, s1 = { bucket := some { tokens := some (some t), last_refill := some (some now) },
                ttl := some (window_seconds * 2) } ∧
      0 ≤ t ∧ t ≤ (max_requests : ℚ) := by
  rcases check_rate_limit_ok_elim _ _ _ _ _ _ _ h with ⟨t, htok, hdv, hsv⟩
  rw [hdv] at hd
  simp only [decide_eq_true_eq] at hd
  refine ⟨t, ?_, hd, ?_⟩
  · rw [hsv]
    simp [hd]
  · have hle := tokensAfterRead_le_sub_one _ _ _ _ _ htok
    linarith

/-- C6 counterexample: a store timeout with `fail_open = true`, capacity
5, window 60 on a fresh key.  The claim says every store fault
(connection failure or timeout) resolves to the degradation decision
`allowed = true`, `remaining = capacity` and is never surfaced as an
exception; the handler at line 187 catches only `RedisConnectionError`,
of which `redis.exceptions.TimeoutError` is not a subclass, so the
timeout propagates uncaught to the caller instead of any decision. -/
theorem C6_counterexample_timeout_uncaught :
    check_rate_limit_with_fault true .timeoutError { bucket := none, ttl := none } 5 60 0 =
      .error .redisTimeout := rfl

/-- C6 amended: only a store connection failure resolves to the
configured degradation decision — fail-open gives `allowed = true` with
`remaining = capacity`, fail-closed gives `allowed = false`,
`remaining = 0`, `retry_after = window_seconds`, and that fault is never
surfaced as an exception to the caller of check; a store timeout instead
propagates uncaught. -/
theorem C6_connection_error_degrades_timeout_raises (fail_open : Bool) (s : Store)
    (max_requests window_seconds : ℤ) (now : ℚ) :
    check_rate_limit_with_fault fail_open .connectionError s max_requests window_seconds now =
      .ok ((if fail_open
            then { allowed := true, limit := max_requests, remaining := max_requests,
                   reset := pyInt (now + (window_seconds : ℚ)), retry_after := 0 }
            else { allowed := false, limit := max_requests, remaining := 0,
                   reset := pyInt (now + (window_seconds : ℚ)), retry_after := window_seconds }),
           s) ∧
    check_rate_limit_with_fault fail_open .timeoutError s max_requests window_seconds now =
      .error .redisTimeout := by
  refine ⟨?_, rfl⟩
  cases fail_open <;> rfl

/-- C7 counterexample: `check_rate_limit` with `capacity = 0` on a fresh
key returns a deny decision instead of raising any error: the code
contains no InvalidConfiguration validation. -/
theorem C7_counterexample_no_validation :
    check_rate_limit true true { bucket := none, ttl := none } 0 60 0 =
      .ok ({ allowed := false, limit := 0, remaining := 0, reset := 60, retry_after := 60 },
           { bucket := none, ttl := none }) := by
  norm_num [check_rate_limit, tokensAfterRead, pyInt, Int.ceil_neg]

/-- C7 amended: `check_rate_limit` validates nothing: a call with
`capacity ≤ 0` that completes without an exception is silently coerced
to a deny decision (`allowed = false`, nothing written), never an
InvalidConfiguration error and never "no limit". -/
theorem C7_nonpositive_capacity_silently_denies (fail_open : Bool) (s : Store)
    (max_requests window_seconds : ℤ) (now : ℚ) (d : Decision) (s1 : Store)
    (hcap : max_requests ≤ 0)
    (h : check_rate_limit fail_open true s max_requests window_seconds now = .ok (d, s1)) :
    d.allowed = false ∧ s1 = s := by
  rcases check_rate_limit_ok_elim _ _ _ _ _ _ _ h with ⟨t, htok, hdv, hsv⟩
  have hle := tokensAfterRead_le_sub_one _ _ _ _ _ htok
  have hneg : ¬ (0 ≤ t) := by
    intro h0
    have hc : (max_requests : ℚ) ≤ 0 := by exact_mod_cast hcap
    linarith
  constructor
  · rw [hdv]
    simp [hneg]
  · rw [hsv]
    simp [hneg]

/-- C8: an allowed check sets the record's TTL to exactly
`2 × window_seconds` (the `expire` call), and under the store's TTL
countdown the remaining TTL afterwards stays between 0 and
`2 × window_seconds` inclusive. -/
theorem C8_ttl_twice_window (fail_open : Bool) (s : Store)
    (max_requests window_seconds : ℤ) (now : ℚ) (d : Decision) (s1 : Store) (elapsed : ℤ)
    (h : check_rate_limit fail_open true s max_requests window_seconds now = .ok (d, s1))
    (hd : d.allowed = true) (hw : 0 ≤ window_seconds) (he : 0 ≤ elapsed) :
    s1.ttl = some (2 * window_seconds) ∧
      0 ≤ ttlRemaining (2 * window_seconds) elapsed ∧
      ttlRemaining (2 * window_seconds) elapsed ≤ 2 * window_seconds := by
  rcases check_rate_limit_ok_elim _ _ _ _ _ _ _ h with ⟨t, _, hdv, hsv⟩
  rw [hdv] at hd
  simp only [decide_eq_true_eq] at hd
  refine ⟨?_, ?_, ?_⟩
  · rw [hsv]
    simp [hd, mul_comm]
  · unfold ttlRemaining
    omega
  · unfold ttlRemaining
    omega

/-- C10: a stored record whose `tokens` field is present but unparseable,
or whose `last_refill` field is missing or unparseable, makes
`check_rate_limit` raise an uncaught exception (only connection errors
are caught): the bucket is neither treated as new nor resolved by the
degradation policy. -/
theorem C10_corrupt_record_raises (fail_open : Bool) (s : Store) (b : RawBucket)
    (max_requests window_seconds : ℤ) (now : ℚ)
    (hb : s.bucket = some b)
    (hc : b.tokens = some none ∨
          (∃ v, b.tokens = some (some v) ∧
                (b.last_refill = none ∨ b.last_refill = some none))) :
    ∃ e, check_rate_limit fail_open true s max_requests window_seconds now = .error e := by
  rcases hc with hc | ⟨v, hc, hlf⟩
  · exact ⟨.valueError, by simp [check_rate_limit, tokensAfterRead, hb, hc]⟩
  · rcases hlf with hlf | hlf
    · exact ⟨.keyError, by simp [check_rate_limit, tokensAfterRead, hb, hc, hlf]⟩
    · exact ⟨.valueError, by simp [check_rate_limit, tokensAfterRead, hb, hc, hlf]⟩

/-- Witness for C2 at a concrete denied call: stored tokens 0, retried at
the same instant. -/
theorem C2_denied_check_leaves_store_unchanged_witness :
    (check_rate_limit true true
        { bucket := some { tokens := some (some 0), last_refill := some (some 0) }, ttl := some 120 }
        5 60 0 =
      .ok ({ allowed := false, limit := 5, remaining := 0, reset := 60, retry_after := 60 },
           { bucket := some { tokens := some (some 0), last_refill := some (some 0) },
             ttl := some 120 })) ∧
    ({ allowed := false, limit := 5, remaining := 0, reset := 60, retry_after := 60 } :
        Decision).allowed = false ∧
    ({ bucket := some { tokens := some (some 0), last_refill := some (some 0) },
       ttl := some 120 } : Store) =
      { bucket := some { tokens := some (some 0), last_refill := some (some 0) },
        ttl := some 120 } :=
  by
  have h : check_rate_limit true true
      { bucket := some { tokens := some (some 0), last_refill := some (some 0) }, ttl := some 120 }
      5 60 0 =
      .ok ({ allowed := false, limit := 5, remaining := 0, reset := 60, retry_after := 60 },
           { bucket := some { tokens := some (some 0), last_refill := some (some 0) },
             ttl := some 120 }) := by
    norm_num [check_rate_limit, tokensAfterRead, refilled, pyInt, Int.ceil_neg]
  exact ⟨h, rfl,
    C2_denied_check_leaves_store_unchanged true
      { bucket := some { tokens := some (some 0), last_refill := some (some 0) }, ttl := some 120 }
      5 60 0
      { allowed := false, limit := 5, remaining := 0, reset := 60, retry_after := 60 }
      { bucket := some { tokens := some (some 0), last_refill := some (some 0) }, ttl := some 120 }
      h rfl⟩

/-- Witness for C4 at a concrete allowed call on a fresh key. -/
theorem C4_persisted_tokens_in_range_witness :
    (check_rate_limit true true { bucket := none, ttl := none } 5 60 0 =
      .ok ({ allowed := true, limit := 5, remaining := 4, reset := 60, retry_after := 0 },
           { bucket := some { tokens := some (some 4), last_refill := some (some 0) },
             ttl := some 120 })) ∧
    (∃ t, ({ bucket := some { tokens := some (some 4), last_refill := some (some 0) },
             ttl := some 120 } : Store) =
        { bucket := some { tokens := some (some t), last_refill := some (some 0) },
          ttl := some (60 * 2) } ∧
      0 ≤ t ∧ t ≤ ((5 : ℤ) : ℚ)) :=
  by
  have h : check_rate_limit true true { bucket := none, ttl := none } 5 60 0 =
      .ok ({ allowed := true, limit := 5, remaining := 4, reset := 60, retry_after := 0 },
           { bucket := some { tokens := some (some 4), last_refill := some (some 0) },
             ttl := some 120 }) := by
    norm_num [check_rate_limit, tokensAfterRead, refilled, pyInt, Int.ceil_neg]
  exact ⟨h,
    C4_persisted_tokens_in_range true { bucket := none, ttl := none } 5 60 0
      { allowed := true, limit := 5, remaining := 4, reset := 60, retry_after := 0 }
      { bucket := some { tokens := some (some 4), last_refill := some (some 0) }, ttl := some 120 }
      h rfl⟩

/-- Witness for the amended C7 at `capacity = 0` on a fresh key. -/
theorem C7_nonpositive_capacity_silently_denies_witness :
    ((0 : ℤ) ≤ 0) ∧
    (check_rate_limit true true { bucket := none, ttl := none } 0 60 0 =
      .ok ({ allowed := false, limit := 0, remaining := 0, reset := 60, retry_after := 60 },
           { bucket := none, ttl := none })) ∧
    (({ allowed := false, limit := 0, remaining := 0, reset := 60, retry_after := 60 } :
        Decision).allowed = false ∧
     ({ bucket := none, ttl := none } : Store) = { bucket := none, ttl := none }) :=
  ⟨le_refl 0,
   by norm_num [check_rate_limit, tokensAfterRead, pyInt, Int.ceil_neg],
   C7_nonpositive_capacity_silently_denies true _ 0 60 0 _ _ (le_refl 0)
     (by norm_num [check_rate_limit, tokensAfterRead, pyInt, Int.ceil_neg])⟩

/-- Witness for C8 at a concrete allowed call, 30 seconds after the write. -/
theorem C8_ttl_twice_window_witness :
    (check_rate_limit true true { bucket := none, ttl := none } 5 60 0 =
      .ok ({ allowed := true, limit := 5, remaining := 4, reset := 60, retry_after := 0 },
           { bucket := some { tokens := some (some 4), last_refill := some (some 0) },
             ttl := some 120 })) ∧
    ((0 : ℤ) ≤ 60) ∧ ((0 : ℤ) ≤ 30) ∧
    (({ bucket := some { tokens := some (some 4), last_refill := some (some 0) },
        ttl := some 120 } : Store).ttl = some (2 * 60) ∧
      0 ≤ ttlRemaining (2 * 60) 30 ∧ ttlRemaining (2 * 60) 30 ≤ 2 * 60) :=
  by
  have h : check_rate_limit true true { bucket := none, ttl := none } 5 60 0 =
      .ok ({ allowed := true, limit := 5, remaining := 4, reset := 60, retry_after := 0 },
           { bucket := some { tokens := some (some 4), last_refill := some (some 0) },
             ttl := some 120 }) := by
    norm_num [check_rate_limit, tokensAfterRead, refilled, pyInt, Int.ceil_neg]
  exact ⟨h, by norm_num, by norm_num,
    C8_ttl_twice_window true { bucket := none, ttl := none } 5 60 0
      { allowed := true, limit := 5, remaining := 4, reset := 60, retry_after := 0 }
      { bucket := some { tokens := some (some 4), last_refill := some (some 0) }, ttl := some 120 }
      30 h rfl (by norm_num) (by norm_num)⟩

/-- Witness for C10 at a concrete record with an unparseable tokens field. -/
theorem C10_corrupt_record_raises_witness :
    (({ bucket := some { tokens := some none, last_refill := some (some 0) },
        ttl := none } : Store).bucket
        = some { tokens := some none, last_refill := some (some 0) }) ∧
    (({ tokens := some none, last_refill := some (some 0) } : RawBucket).tokens = some none ∨
      (∃ v, ({ tokens := some none, last_refill := some (some 0) } : RawBucket).tokens
              = some (some v) ∧
            (({ tokens := some none, last_refill := some (some 0) } : RawBucket).last_refill
                = none ∨
             ({ tokens := some none, last_refill := some (some 0) } : RawBucket).last_refill
                = some none))) ∧
    (∃ e, check_rate_limit true true
        { bucket := some { tokens := some none, last_refill := some (some 0) }, ttl := none }
        5 60 0 = .error e) :=
  ⟨rfl, Or.inl rfl,
   C10_corrupt_record_raises true _ _ 5 60 0 rfl (Or.inl rfl)⟩

/-- C3 counterexample: stored tokens 5, stored last_refill 10, now 0
(stored timestamp later than now), capacity 5, window 10.  The claim says
the elapsed time is clamped to 0 so the post-refill balance equals the
stored balance 5 and the check is allowed; the code uses
elapsed = 0 - 10 = -10 unclamped, refills to 0, and denies without
writing. -/
theorem C3_counterexample_unclamped_elapsed :
    refilled 5 10 5 10 0 = 0 ∧ refilled 5 10 5 10 0 ≠ 5 ∧
    check_rate_limit true true
        { bucket := some { tokens := some (some 5), last_refill := some (some 10) },
          ttl := some 20 } 5 10 0 =
      .ok ({ allowed := false, limit := 5, remaining := 0, reset := 10, retry_after := 10 },
           { bucket := some { tokens := some (some 5), last_refill := some (some 10) },
             ttl := some 20 }) := by
  refine ⟨by norm_num [refilled], by norm_num [refilled], ?_⟩
  norm_num [check_rate_limit, tokensAfterRead, refilled, pyInt, Int.ceil_neg]

/-- C3 amended: the elapsed time used for refill is `now - last_refill`
with no clamping; when the stored `last_refill` is later than `now`, the
post-refill balance does not equal the stored balance: it drops strictly
below it, by `(last_refill - now) * capacity / window_seconds` for a
stored balance within capacity — an extra penalty beyond the attempted
consumption. -/
theorem C3_amended_negative_elapsed_penalizes (t lr : ℚ) (max_requests window_seconds : ℤ)
    (now : ℚ) (hlr : now < lr) (hcap : 0 < max_requests) (hw : 0 < window_seconds)
    (ht : t ≤ (max_requests : ℚ)) :
    refilled t lr max_requests window_seconds now
        = t - (lr - now) * ((max_requests : ℚ) / (window_seconds : ℚ)) ∧
    refilled t lr max_requests window_seconds now < t := by
  have hc : (0 : ℚ) < (max_requests : ℚ) := by exact_mod_cast hcap
  have hwq : (0 : ℚ) < (window_seconds : ℚ) := by exact_mod_cast hw
  have hr : 0 < (max_requests : ℚ) / (window_seconds : ℚ) := div_pos hc hwq
  have hneg : (now - lr) * ((max_requests : ℚ) / (window_seconds : ℚ)) < 0 :=
    mul_neg_of_neg_of_pos (by linarith) hr
  have hmin : t + (now - lr) * ((max_requests : ℚ) / (window_seconds : ℚ))
      ≤ (max_requests : ℚ) := by linarith
  have h1 : refilled t lr max_requests window_seconds now
      = t - (lr - now) * ((max_requests : ℚ) / (window_seconds : ℚ)) := by
    unfold refilled
    rw [min_eq_right hmin]
    ring
  exact ⟨h1, by rw [h1]; linarith⟩

/-- Witness for the amended C3 at the clock-skew input of the
counterexample. -/
theorem C3_amended_negative_elapsed_penalizes_witness :
    ((0 : ℚ) < 10) ∧ ((0 : ℤ) < 5) ∧ ((0 : ℤ) < 10) ∧ ((5 : ℚ) ≤ ((5 : ℤ) : ℚ)) ∧
    (refilled 5 10 5 10 0 = 5 - (10 - 0) * (((5 : ℤ) : ℚ) / ((10 : ℤ) : ℚ)) ∧
     refilled 5 10 5 10 0 < 5) :=
  ⟨by norm_num, by norm_num, by norm_num, by norm_num,
   C3_amended_negative_elapsed_penalizes 5 10 5 10 0 (by norm_num) (by norm_num)
     (by norm_num) (by norm_num)⟩

/-- C1, the code evaluated at the failing schedule: 20 concurrent callers
on an absent key with capacity 10 and window 60, interleaved so that
every caller's `hgetall` read runs before any caller's `hset` write, all
receive `allowed = true` — 20 allowed decisions where the claim says at
most 10: the read and the write are separate store operations, not one
atomic unit. -/
theorem C1_nonatomic_concurrent_overadmission :
    allowedCount (concurrentDecisions 20 none 10 60 0) = 20 ∧
    ¬ allowedCount (concurrentDecisions 20 none 10 60 0) ≤ 10 := by
  have hb : allowedFromSnapshot none 10 60 0 = true := by
    norm_num [allowedFromSnapshot, tokensAfterRead]
  constructor
  · simp only [concurrentDecisions, hb]
    decide
  · simp only [concurrentDecisions, hb]
    decide

set_option maxRecDepth 20000 in
/-- C5 counterexample: with strategy `ip` and an `X-Forwarded-For` value
holding a ';', a newline and 200 further characters, `get_rate_limit_key`
returns a key that keeps the ';' and the newline and is 231 characters
long: the code neither sanitizes nor truncates (and the repository's own
tests import a `sanitize_key_component` that the template does not
define). -/
theorem C5_key_built_unsanitized :
    get_rate_limit_key .ip (some ("1.1.1.1;\nFLUSHALL".data ++ List.replicate 200 'x'))
        "10.0.0.9".data none "/api/login".data =
      .ok ("ip:".data ++ ("1.1.1.1;\nFLUSHALL".data ++ List.replicate 200 'x') ++ ":".data
            ++ "/api/login".data) ∧
    ';' ∈ ("ip:".data ++ ("1.1.1.1;\nFLUSHALL".data ++ List.replicate 200 'x') ++ ":".data
            ++ "/api/login".data) ∧
    '\n' ∈ ("ip:".data ++ ("1.1.1.1;\nFLUSHALL".data ++ List.replicate 200 'x') ++ ":".data
            ++ "/api/login".data) ∧
    100 < ("ip:".data ++ ("1.1.1.1;\nFLUSHALL".data ++ List.replicate 200 'x') ++ ":".data
            ++ "/api/login".data).length := by
  refine ⟨?_, ?_, ?_, ?_⟩ <;> decide

/-- C9: for capacity 5 and any positive window, starting from an absent
key and with no time elapsing between the calls, the first five
sequential `check_rate_limit` calls on the key return `allowed = true`
and the sixth returns `allowed = false`. -/
theorem C9_first_five_allowed_sixth_denied (window_seconds : ℤ) (hw : 0 < window_seconds)
    (now : ℚ) :
    (runChecks true true 5 window_seconds now 6 { bucket := none, ttl := none }).1 =
      [true, true, true, true, true, false] := by
  have hwz : window_seconds ≠ 0 := by omega
  norm_num [runChecks, check_rate_limit, tokensAfterRead, refilled, hwz, sub_self, zero_mul,
    add_zero, pyInt]

/-- Witness for C9 at window 10, now 0. -/
theorem C9_first_five_allowed_sixth_denied_witness :
    ((0 : ℤ) < 10) ∧
    (runChecks true true 5 10 0 6 { bucket := none, ttl := none }).1 =
      [true, true, true, true, true, false] :=
  ⟨by norm_num, C9_first_five_allowed_sixth_denied 10 (by norm_num) 0⟩

end RateLimit
